import Mathlib

/-!
Verification of the core numeric routines of PySpectroscope
(src/spectroscope.py), shallowly embedded over the rationals.

Python machine reals are modelled by `ℚ` (every arithmetic operation the
embedded routines perform — addition, subtraction, multiplication,
division, absolute value — is exact over the rationals); the single
non-rational operation, the gamma power `(color * factor) ** 0.8` inside
`_wavelength_to_rgb.adjust`, is kept abstract as a parameter `pw : ℚ → ℚ`
since no claim depends on its value.  A Python call that can raise
(`ZeroDivisionError` in `_px_to_nm` / `_nm_to_px`) is embedded as an
`Option`-valued function returning `none` on the raising input.
-/

namespace PySpectroscope

/-- A two-point calibration, the shape of the class attribute
`SpectrometerApp.calibration`: the pairs `(px0, nm0)` and `(px1, nm1)`. -/
structure Calib where
  px0 : ℚ
  nm0 : ℚ
  px1 : ℚ
  nm1 : ℚ
deriving DecidableEq, Repr

/-- The hardcoded class attribute `SpectrometerApp.calibration`
(src/spectroscope.py lines 21-24): `((305, 405), (707, 631))`. -/
def calibration : Calib := ⟨305, 405, 707, 631⟩

/-- The quantity `nm_range = abs(nm0 - nm1)` computed inside `_nm_to_px`
and `_px_to_nm`. -/
def nmRange (c : Calib) : ℚ := |c.nm0 - c.nm1|

/-- The quantity `px_range = abs(px0 - px1)` computed inside `_nm_to_px`
and `_px_to_nm`. -/
def pxRange (c : Calib) : ℚ := |c.px0 - c.px1|

/-- The value `_px_to_nm` returns when it does not raise:
`nm0 + (x - px0) * nmperpx` with `nmperpx = nm_range / px_range`
(src/spectroscope.py lines 167-174). -/
def pxToNmVal (c : Calib) (x : ℚ) : ℚ :=
  c.nm0 + (x - c.px0) * (nmRange c / pxRange c)

/-- Embedding of `SpectrometerApp._px_to_nm` (src/spectroscope.py lines
167-174).  The division `nm_range / px_range` raises `ZeroDivisionError`
when `px_range == 0`, modelled as `none`. -/
def pxToNm (c : Calib) (x : ℚ) : Option ℚ :=
  if pxRange c = 0 then none else some (pxToNmVal c x)

/-- The value `_nm_to_px` returns when it does not raise:
`px0 + (nm - nm0) * pxpernm` with `pxpernm = px_range / nm_range`
(src/spectroscope.py lines 158-165). -/
def nmToPxVal (c : Calib) (nm : ℚ) : ℚ :=
  c.px0 + (nm - c.nm0) * (pxRange c / nmRange c)

/-- Embedding of `SpectrometerApp._nm_to_px` (src/spectroscope.py lines
158-165).  The division `px_range / nm_range` raises `ZeroDivisionError`
when `nm_range == 0`, modelled as `none`. -/
def nmToPx (c : Calib) (nm : ℚ) : Option ℚ :=
  if nmRange c = 0 then none else some (nmToPxVal c nm)

/-- The calibration-relevant effect of `SpectrometerApp.__init__`
(src/spectroscope.py lines 28-36): the constructor stores widget and
capture state and does not inspect the class calibration at all — it
performs no validation and never raises for degenerate pairs (no
`InvalidCalibration` error exists anywhere in the program). -/
def initCalibrationCheck (c : Calib) : Except String Calib := Except.ok c

/-- The raw `(r, g, b)` triple assigned by the six-band `if`/`elif`
chain of `SpectrometerApp._wavelength_to_rgb` (src/spectroscope.py
lines 191-208), before the intensity taper and gamma adjustment. -/
def rawRgb (nm : ℚ) : ℚ × ℚ × ℚ :=
  if 380 ≤ nm ∧ nm < 440 then (-(nm - 440) / (440 - 380), 0, 1)
  else if 440 ≤ nm ∧ nm < 490 then (0, (nm - 440) / (490 - 440), 1)
  else if 490 ≤ nm ∧ nm < 510 then (0, 1, -(nm - 510) / (510 - 490))
  else if 510 ≤ nm ∧ nm < 580 then ((nm - 510) / (580 - 510), 1, 0)
  else if 580 ≤ nm ∧ nm < 645 then (1, -(nm - 645) / (645 - 580), 0)
  else if 645 ≤ nm ∧ nm ≤ 780 then (1, 0, 0)
  else (0, 0, 0)

/-- The intensity-taper `factor` computed by the second `if`/`elif`
chain of `SpectrometerApp._wavelength_to_rgb` (src/spectroscope.py
lines 210-216).  Note the last band: `0.3 + 0.7 * (780 - nm) / (780 - 700)`
for `701 <= nm <= 780` — the denominator is `780 - 700 = 80` although
the band starts at 701. -/
def factorOf (nm : ℚ) : ℚ :=
  if 380 ≤ nm ∧ nm < 420 then 3/10 + 7/10 * (nm - 380) / (420 - 380)
  else if 420 ≤ nm ∧ nm < 701 then 1
  else if 701 ≤ nm ∧ nm ≤ 780 then 3/10 + 7/10 * (780 - nm) / (780 - 700)
  else 0

/-- The inner function `adjust` of `_wavelength_to_rgb`
(src/spectroscope.py lines 218-219):
`max_intensity * ((color * factor) ** gamma) if color > 0 else 0`,
with the power `(· ** gamma)`, `gamma = 0.8`, abstracted as `pw`. -/
def adjust (pw : ℚ → ℚ) (maxIntensity factor color : ℚ) : ℚ :=
  if 0 < color then maxIntensity * pw (color * factor) else 0

/-- Embedding of `SpectrometerApp._wavelength_to_rgb`
(src/spectroscope.py lines 185-221), with the gamma power abstracted
as `pw` (it stands for `fun x => x ** 0.8`). -/
def wavelengthToRgb (pw : ℚ → ℚ) (nm maxIntensity : ℚ) : ℚ × ℚ × ℚ :=
  let raw := rawRgb nm
  let f := factorOf nm
  (adjust pw maxIntensity f raw.1,
   adjust pw maxIntensity f raw.2.1,
   adjust pw maxIntensity f raw.2.2)

/-- Embedding of `SpectrometerApp._px_to_rgb` (src/spectroscope.py
lines 180-183): converts a column through `_px_to_nm` under the
hardcoded calibration, then through `_wavelength_to_rgb`. -/
def pxToRgb (pw : ℚ → ℚ) (x maxIntensity : ℚ) : Option (ℚ × ℚ × ℚ) :=
  (pxToNm calibration x).map fun nm => wavelengthToRgb pw nm maxIntensity

/-- A raw video frame as the core reads it: a `height × width` raster of
BGR byte triples (the capture collaborator hands frames in OpenCV BGR
order).  Pixels are a total function so that any raster fits. -/
structure Frame where
  height : ℕ
  width : ℕ
  pixel : ℕ → ℕ → ℕ × ℕ × ℕ

/-- The geometry and colors `_draw_spectrum` pushes to the two
matplotlib collections: `lc.set_segments`/`set_color` and
`pc.set_verts`/`set_facecolor`/`set_edgecolor`, plus the intensity
profile `intensity_line` it reads from the frame. -/
structure SpectrumDrawing where
  intensity : List ℕ
  segments : List ((ℚ × ℚ) × (ℚ × ℚ))
  segmentColors : List (Option (ℚ × ℚ × ℚ))
  vertices : List (List (ℚ × ℚ))
  fillColors : List (Option (ℚ × ℚ × ℚ))

/-- Embedding of `SpectrometerApp._draw_spectrum` (src/spectroscope.py
lines 109-129).  `gray` stands for the external
`cv2.cvtColor(frame, cv2.COLOR_BGR2GRAY)` conversion, giving the
grayscale byte at a (row, column); the code reads row
`mid_y = height // 2` as `intensity_line` and builds, for each
`px in range(width - 1)`, one line segment (colored at
`max_intensity=0.5`) and one fill quadrilateral (colored at the
default `max_intensity=1.0`). -/
def drawSpectrum (pw : ℚ → ℚ) (gray : ℕ → ℕ → ℕ) (height width : ℕ) :
    SpectrumDrawing :=
  let midY := height / 2
  let intensityLine : ℕ → ℕ := gray midY
  { intensity := (List.range width).map intensityLine
    segments := (List.range (width - 1)).map fun (px : ℕ) =>
      (((px : ℚ), (intensityLine px : ℚ)),
       ((px : ℚ) + 1, (intensityLine (px + 1) : ℚ)))
    segmentColors := (List.range (width - 1)).map fun (px : ℕ) =>
      pxToRgb pw (px : ℚ) (1/2)
    vertices := (List.range (width - 1)).map fun (px : ℕ) =>
      [((px : ℚ), 0), ((px : ℚ), (intensityLine px : ℚ)),
       ((px : ℚ) + 1, (intensityLine (px + 1) : ℚ)), ((px : ℚ) + 1, 0)]
    fillColors := (List.range (width - 1)).map fun (px : ℕ) =>
      pxToRgb pw (px : ℚ) 1 }

/-- The display-visible state `update` can touch on a tick: the two
matplotlib collections (as a `SpectrumDrawing`), the overlay thumbnail
`overlay_tk_img`, and the cached `_current_frame`. -/
structure DisplayState where
  drawing : SpectrumDrawing
  overlay : Option Frame
  currentFrame : Option Frame

/-- Embedding of `SpectrometerApp.update` (src/spectroscope.py lines
84-96) on one tick.  `readResult` is what `self.vid.read()` yielded
(`none` when `ret` is false); `gray` and `resize` stand for the
external `cv2.cvtColor` and `cv2.resize` collaborators.  When a frame
arrives the code runs `_draw_spectrum`, `_draw_overlay` and stores the
frame; when not, the body under `if ret:` is skipped entirely. -/
def update (pw : ℚ → ℚ) (gray : Frame → ℕ → ℕ → ℕ) (resize : Frame → Frame)
    (readResult : Option Frame) (s : DisplayState) : DisplayState :=
  match readResult with
  | none => s
  | some frame =>
      { drawing := drawSpectrum pw (gray frame) frame.height frame.width
        overlay := some (resize frame)
        currentFrame := some frame }

/-- The state `_save_snapshot` reads and writes: the cached
`_current_frame` and the text of `status_lbl`. -/
structure SnapshotState where
  currentFrame : Option Frame
  statusText : String

/-- Embedding of `SpectrometerApp._save_snapshot` (src/spectroscope.py
lines 223-236).  Returns the updated state together with the list of
file names written (`cv2.imwrite` and `fig.savefig` targets).  When
`_current_frame is None` the method returns before any write. -/
def saveSnapshot (timestamp : String) (s : SnapshotState) :
    SnapshotState × List String :=
  match s.currentFrame with
  | none => (s, [])
  | some _ =>
      let filename := "spectrum_" ++ timestamp ++ ".png"
      ({ s with statusText := "File " ++ filename ++ " saved" },
       [filename, "spectrum_" ++ timestamp ++ "_graph.png"])

/-- The intensity-taper factor as amended: same ramps as the spec on
[380,420) and [420,701) and zero outside [380,780], but the ramp on
[701,780] is anchored at value 1 at nm = 700 (just below the band),
`1 - (7/10) * (nm - 700) / 80`, so it starts at 793/800 = 0.99125 at
nm = 701, not at 1. -/
def factorSpecAmended (nm : ℚ) : ℚ :=
  if 380 ≤ nm ∧ nm < 420 then 3/10 + 7/10 * (nm - 380) / 40
  else if 420 ≤ nm ∧ nm < 701 then 1
  else if 701 ≤ nm ∧ nm ≤ 780 then 1 - 7/10 * (nm - 700) / 80
  else 0

lemma pxRange_ne_zero {c : Calib} (hpx : c.px0 ≠ c.px1) : pxRange c ≠ 0 := by
  simpa [pxRange, abs_eq_zero, sub_eq_zero] using hpx

lemma nmRange_ne_zero {c : Calib} (hnm : c.nm0 ≠ c.nm1) : nmRange c ≠ 0 := by
  simpa [nmRange, abs_eq_zero, sub_eq_zero] using hnm

lemma abs_sub_eval_of_le {a b : ℚ} (h : a ≤ b) : |a - b| = b - a := by
  rw [abs_sub_comm, abs_of_nonneg (by linarith)]

lemma abs_sub_eval_of_ge {a b : ℚ} (h : b ≤ a) : |a - b| = a - b :=
  abs_of_nonneg (by linarith)

lemma pxRange_calibration : pxRange calibration = 402 := by
  rw [pxRange]
  show |(305 : ℚ) - 707| = 402
  rw [abs_sub_eval_of_le (by norm_num)]
  norm_num

lemma nmRange_calibration : nmRange calibration = 226 := by
  rw [nmRange]
  show |(405 : ℚ) - 631| = 226
  rw [abs_sub_eval_of_le (by norm_num)]
  norm_num

lemma adjust_half (pw : ℚ → ℚ) (f c : ℚ) :
    adjust pw (1/2) f c = (1/2) * adjust pw 1 f c := by
  unfold adjust
  split_ifs <;> ring

lemma getD_range_map {α : Type} (f : ℕ → α) (d : α) {n i : ℕ} (hi : i < n) :
    ((List.range n).map f).getD i d = f i := by
  simp [List.getD_eq_getElem?_getD, List.getElem?_map, List.getElem?_range, hi]

/-- C1: for a calibration with distinct pixel columns and distinct
wavelengths, `_nm_to_px` after `_px_to_nm` is the identity: the
round-trip `wavelength_to_pixel(pixel_to_wavelength(x)) = x` holds
exactly (over the rationals, where every operation involved is exact)
for every x. -/
theorem px_nm_roundtrip (c : Calib) (x : ℚ)
    (hpx : c.px0 ≠ c.px1) (hnm : c.nm0 ≠ c.nm1) :
    (pxToNm c x).bind (nmToPx c) = some x := by
  have hp := pxRange_ne_zero hpx
  have hn := nmRange_ne_zero hnm
  have hval : nmToPxVal c (pxToNmVal c x) = x := by
    unfold nmToPxVal pxToNmVal
    field_simp
    ring
  simp [pxToNm, nmToPx, hp, hn, hval]

theorem px_nm_roundtrip_witness :
    calibration.px0 ≠ calibration.px1 ∧ calibration.nm0 ≠ calibration.nm1 ∧
    (pxToNm calibration 3).bind (nmToPx calibration) = some 3 :=
  ⟨by norm_num [calibration], by norm_num [calibration],
   px_nm_roundtrip calibration 3 (by norm_num [calibration]) (by norm_num [calibration])⟩

/-- C2: under the hardcoded calibration pairs (305, 405) and (707, 631),
`_px_to_nm` returns exactly 405 at x = 305 and exactly 631 at x = 707,
and at every x it computes nm0 + (x - px0) * (|nm1 - nm0| / |px1 - px0|). -/
theorem fixed_calibration_values :
    pxToNm calibration 305 = some 405 ∧
    pxToNm calibration 707 = some 631 ∧
    ∀ x : ℚ, pxToNm calibration x =
      some (405 + (x - 305) * (|(631 : ℚ) - 405| / |(707 : ℚ) - 305|)) := by
  have h : pxRange calibration ≠ 0 := by rw [pxRange_calibration]; norm_num
  have e1 : |(631 : ℚ) - 405| = 226 := by
    rw [abs_sub_eval_of_ge (by norm_num)]; norm_num
  have e2 : |(707 : ℚ) - 305| = 402 := by
    rw [abs_sub_eval_of_ge (by norm_num)]; norm_num
  refine ⟨?_, ?_, fun x => ?_⟩ <;>
    · simp only [pxToNm, h, if_false, pxToNmVal, pxRange_calibration,
        nmRange_calibration, e1, e2]
      norm_num [calibration]

/-- C3 counterexample: the calibration ((0, 500), (100, 400)) has
distinct pixel columns and distinct wavelengths and runs the axes in
opposite directions, yet `_px_to_nm` maps px1 = 100 to 600, not to
nm1 = 400: the absolute-difference scale factor does not make the map
endpoint-correct for inverted calibrations. -/
theorem px_to_nm_inverted_counterexample :
    (0 : ℚ) ≠ 100 ∧ (500 : ℚ) ≠ 400 ∧
    pxToNm (⟨0, 500, 100, 400⟩ : Calib) 100 = some 600 ∧
    some (600 : ℚ) ≠ some (400 : ℚ) := by
  have habs1 : |(0 : ℚ) - 100| = 100 := by
    rw [abs_sub_eval_of_le (by norm_num)]; norm_num
  have habs2 : |(500 : ℚ) - 400| = 100 := by
    rw [abs_sub_eval_of_ge (by norm_num)]; norm_num
  refine ⟨by norm_num, by norm_num, ?_, by simp⟩
  simp only [pxToNm, pxToNmVal, pxRange, nmRange]
  norm_num [habs1, habs2]

/-- C3 amended: for every calibration with distinct pixel columns and
distinct wavelengths, `_px_to_nm` maps px0 to nm0; it maps px1 to nm1
when the pixel and wavelength axes increase in the same direction
(px1 - px0 and nm1 - nm0 of the same sign) — for opposite directions
it does not (see the counterexample). -/
theorem px_to_nm_endpoints_same_direction (c : Calib)
    (hpx : c.px0 ≠ c.px1) (hnm : c.nm0 ≠ c.nm1) :
    pxToNm c c.px0 = some c.nm0 ∧
    (0 < (c.px1 - c.px0) * (c.nm1 - c.nm0) → pxToNm c c.px1 = some c.nm1) := by
  have hp := pxRange_ne_zero hpx
  constructor
  · simp [pxToNm, hp, pxToNmVal]
  · intro hsame
    have hx : c.px0 - c.px1 ≠ 0 := sub_ne_zero.mpr hpx
    rcases lt_or_gt_of_ne hpx with h | h
    · have h1 : pxRange c = c.px1 - c.px0 := by
        rw [pxRange, abs_sub_comm]
        exact abs_of_pos (by linarith)
      have hnmlt : c.nm0 < c.nm1 := by nlinarith
      have h2 : nmRange c = c.nm1 - c.nm0 := by
        rw [nmRange, abs_sub_comm]
        exact abs_of_pos (by linarith)
      have hd : c.px1 - c.px0 ≠ 0 := sub_ne_zero.mpr h.ne'
      unfold pxToNm pxToNmVal
      rw [h1, h2, if_neg hd, Option.some.injEq]
      field_simp
    · have h1 : pxRange c = c.px0 - c.px1 := by
        rw [pxRange]
        exact abs_of_pos (by linarith)
      have hnmlt : c.nm1 < c.nm0 := by nlinarith
      have h2 : nmRange c = c.nm0 - c.nm1 := by
        rw [nmRange]
        exact abs_of_pos (by linarith)
      unfold pxToNm pxToNmVal
      rw [h1, h2, if_neg hx, Option.some.injEq]
      field_simp
      ring

theorem px_to_nm_endpoints_same_direction_witness :
    (calibration.px0 ≠ calibration.px1 ∧ calibration.nm0 ≠ calibration.nm1 ∧
      0 < (calibration.px1 - calibration.px0) * (calibration.nm1 - calibration.nm0)) ∧
    pxToNm calibration calibration.px0 = some calibration.nm0 ∧
    pxToNm calibration calibration.px1 = some calibration.nm1 :=
  ⟨⟨by norm_num [calibration], by norm_num [calibration], by norm_num [calibration]⟩,
   (px_to_nm_endpoints_same_direction calibration (by norm_num [calibration])
     (by norm_num [calibration])).1,
   (px_to_nm_endpoints_same_direction calibration (by norm_num [calibration])
     (by norm_num [calibration])).2 (by norm_num [calibration])⟩

/-- C4 counterexample: with the degenerate calibration pairs
(305, 405) and (305, 631) — equal pixel columns — construction
succeeds (no InvalidCalibration error exists and `__init__` performs no
validation), and the failure instead happens at call time:
`_px_to_nm` raises (returns `none`) on every call. -/
theorem degenerate_calibration_constructs :
    initCalibrationCheck ⟨305, 405, 305, 631⟩ = Except.ok ⟨305, 405, 305, 631⟩ ∧
    pxToNm (⟨305, 405, 305, 631⟩ : Calib) 0 = none :=
  ⟨rfl, by simp [pxToNm, pxRange]⟩

/-- C4 amended: construction never validates the calibration and never
fails, for degenerate pairs included; instead, equal pixel columns make
`_px_to_nm` fail with a division by zero at every call, and equal
wavelengths make `_nm_to_px` fail with a division by zero at every
call. -/
theorem no_validation_at_construction (c : Calib) (x nm : ℚ) :
    initCalibrationCheck c = Except.ok c ∧
    (c.px0 = c.px1 → pxToNm c x = none) ∧
    (c.nm0 = c.nm1 → nmToPx c nm = none) := by
  refine ⟨rfl, fun h => ?_, fun h => ?_⟩
  · simp [pxToNm, pxRange, h]
  · simp [nmToPx, nmRange, h]

theorem no_validation_at_construction_witness :
    initCalibrationCheck ⟨305, 405, 305, 631⟩ = Except.ok ⟨305, 405, 305, 631⟩ ∧
    pxToNm (⟨305, 405, 305, 631⟩ : Calib) 7 = none :=
  ⟨(no_validation_at_construction ⟨305, 405, 305, 631⟩ 7 0).1,
   (no_validation_at_construction ⟨305, 405, 305, 631⟩ 7 0).2.1 rfl⟩

/-- C5 counterexample: at nm = 701 the intensity-taper factor is
793/800 = 0.99125, not 1: the ramp on [701, 780] does not start at
1.0 at nm = 701 as the claim states (its denominator is 780 - 700
although the band starts at 701). -/
theorem factor_at_701_counterexample :
    factorOf 701 = 793/800 ∧ (793/800 : ℚ) ≠ 1 := by
  constructor
  · rw [factorOf, if_neg (by norm_num), if_neg (by norm_num),
      if_pos (by norm_num : (701:ℚ) ≤ 701 ∧ (701:ℚ) ≤ 780)]
    norm_num
  · norm_num

/-- C5 amended: the intensity-taper factor is the piecewise function
with a linear ramp 0.3 → 1.0 over [380, 420), constant 1 over
[420, 701), zero outside [380, 780], and over [701, 780] a linear ramp
anchored at value 1 at nm = 700: `1 - (7/10) * (nm - 700) / 80`, which
is 793/800 (not 1) at nm = 701 and 3/10 at nm = 780. -/
theorem factor_piecewise :
    (∀ nm : ℚ, factorOf nm = factorSpecAmended nm) ∧
    factorOf 701 = 793/800 ∧ factorOf 780 = 3/10 := by
  have hpw : ∀ nm : ℚ, factorOf nm = factorSpecAmended nm := by
    intro nm
    unfold factorOf factorSpecAmended
    split_ifs <;> ring
  refine ⟨hpw, ?_, ?_⟩
  · rw [hpw, factorSpecAmended, if_neg (by norm_num), if_neg (by norm_num),
      if_pos (by norm_num : (701:ℚ) ≤ 701 ∧ (701:ℚ) ≤ 780)]
    norm_num
  · rw [hpw, factorSpecAmended, if_neg (by norm_num), if_neg (by norm_num),
      if_pos (by norm_num : (701:ℚ) ≤ 780 ∧ (780:ℚ) ≤ 780)]
    norm_num

/-- C6: for every wavelength, `_wavelength_to_rgb` at
`max_intensity = 0.5` gives, channel by channel, exactly half of its
value at `max_intensity = 1`: the intensity scaling multiplies the
gamma-adjusted value `(c * factor) ** gamma` linearly, whatever the
gamma power `pw` computes. -/
theorem rgb_linear_in_max_intensity (pw : ℚ → ℚ) (nm : ℚ) :
    wavelengthToRgb pw nm (1/2) =
      ((1/2) * (wavelengthToRgb pw nm 1).1,
       (1/2) * (wavelengthToRgb pw nm 1).2.1,
       (1/2) * (wavelengthToRgb pw nm 1).2.2) := by
  unfold wavelengthToRgb
  simp only [adjust_half]

/-- C7: for a frame of height h and width w, `_draw_spectrum` takes the
grayscale of the row at h // 2 as the intensity profile (one value per
column, w values) and produces exactly w - 1 line segments, each from
(x, intensity x) to (x + 1, intensity (x + 1)) and colored through
`_px_to_rgb` at `max_intensity = 0.5`, and exactly w - 1 fill
quadrilaterals from the baseline up to the two intensity values,
colored at the default `max_intensity = 1`. -/
theorem draw_spectrum_spec (pw : ℚ → ℚ) (gray : ℕ → ℕ → ℕ) (h w : ℕ) :
    (drawSpectrum pw gray h w).intensity = (List.range w).map (gray (h / 2)) ∧
    (drawSpectrum pw gray h w).intensity.length = w ∧
    (drawSpectrum pw gray h w).segments.length = w - 1 ∧
    (drawSpectrum pw gray h w).segmentColors.length = w - 1 ∧
    (drawSpectrum pw gray h w).vertices.length = w - 1 ∧
    (drawSpectrum pw gray h w).fillColors.length = w - 1 ∧
    ∀ i, i < w - 1 →
      (drawSpectrum pw gray h w).segments.getD i default =
        (((i : ℚ), (gray (h / 2) i : ℚ)),
         ((i : ℚ) + 1, (gray (h / 2) (i + 1) : ℚ))) ∧
      (drawSpectrum pw gray h w).segmentColors.getD i default =
        pxToRgb pw (i : ℚ) (1/2) ∧
      (drawSpectrum pw gray h w).vertices.getD i default =
        [((i : ℚ), 0), ((i : ℚ), (gray (h / 2) i : ℚ)),
         ((i : ℚ) + 1, (gray (h / 2) (i + 1) : ℚ)), ((i : ℚ) + 1, 0)] ∧
      (drawSpectrum pw gray h w).fillColors.getD i default =
        pxToRgb pw (i : ℚ) 1 := by
  refine ⟨rfl, by simp [drawSpectrum], by simp [drawSpectrum],
    by simp [drawSpectrum], by simp [drawSpectrum], by simp [drawSpectrum],
    fun i hi => ⟨?_, ?_, ?_, ?_⟩⟩ <;>
  · show ((List.range (w - 1)).map _).getD i default = _
    rw [getD_range_map _ _ hi]

theorem draw_spectrum_spec_witness :
    (drawSpectrum id (fun r c => r + c) 4 3).segments.length = 3 - 1 ∧
    ((1 : ℕ) < 3 - 1 ∧
      (drawSpectrum id (fun r c => r + c) 4 3).segments.getD 1 default =
        (((1 : ℚ), ((3 : ℕ) : ℚ)), ((1 : ℚ) + 1, ((4 : ℕ) : ℚ))) ∧
      (drawSpectrum id (fun r c => r + c) 4 3).segmentColors.getD 1 default =
        pxToRgb id (1 : ℚ) (1/2)) :=
  ⟨(draw_spectrum_spec id (fun r c => r + c) 4 3).2.2.1,
   by decide,
   ((draw_spectrum_spec id (fun r c => r + c) 4 3).2.2.2.2.2.2 1 (by decide)).1,
   ((draw_spectrum_spec id (fun r c => r + c) 4 3).2.2.2.2.2.2 1 (by decide)).2.1⟩

/-- C9: on a tick where `vid.read()` yields no frame, `update` leaves
every piece of display state unchanged — the line segments and their
colors, the fill polygons and their colors, the overlay thumbnail and
the cached current frame — and raises nothing (it is a total
function). -/
theorem update_missed_frame_noop (pw : ℚ → ℚ) (gray : Frame → ℕ → ℕ → ℕ)
    (resize : Frame → Frame) (s : DisplayState) :
    update pw gray resize none s = s ∧
    (update pw gray resize none s).drawing = s.drawing ∧
    (update pw gray resize none s).overlay = s.overlay ∧
    (update pw gray resize none s).currentFrame = s.currentFrame :=
  ⟨rfl, rfl, rfl, rfl⟩

/-- C8: a snapshot request while `_current_frame is None` writes no
file, changes no state and reports nothing: `_save_snapshot` returns
immediately with an empty write list and the status text unchanged. -/
theorem snapshot_no_frame_noop (timestamp : String) (s : SnapshotState)
    (h : s.currentFrame = none) :
    saveSnapshot timestamp s = (s, []) := by
  unfold saveSnapshot
  rw [h]

theorem snapshot_no_frame_noop_witness :
    (⟨none, "Ready"⟩ : SnapshotState).currentFrame = none ∧
    saveSnapshot "20260212_101500" ⟨none, "Ready"⟩ = (⟨none, "Ready"⟩, []) :=
  ⟨rfl, snapshot_no_frame_noop "20260212_101500" ⟨none, "Ready"⟩ rfl⟩

/-- C10: for every calibration with distinct pixel columns and distinct
wavelengths, `_px_to_nm` is strictly increasing in x: its slope
`|nm0 - nm1| / |px0 - px1|` is positive, so the pixel-to-wavelength map
is never decreasing, whatever the ordering of the calibration pairs. -/
theorem px_to_nm_strict_mono (c : Calib) (x y u v : ℚ)
    (hpx : c.px0 ≠ c.px1) (hnm : c.nm0 ≠ c.nm1) (hxy : x < y)
    (hx : pxToNm c x = some u) (hy : pxToNm c y = some v) : u < v := by
  have hp : (0 : ℚ) < pxRange c :=
    abs_pos.mpr (sub_ne_zero.mpr hpx)
  have hn : (0 : ℚ) < nmRange c :=
    abs_pos.mpr (sub_ne_zero.mpr hnm)
  have hp0 : pxRange c ≠ 0 := ne_of_gt hp
  rw [pxToNm, if_neg hp0, Option.some.injEq] at hx hy
  have hk : (0 : ℚ) < nmRange c / pxRange c := div_pos hn hp
  rw [← hx, ← hy]
  unfold pxToNmVal
  have := mul_lt_mul_of_pos_right (sub_lt_sub_right hxy c.px0) hk
  linarith

theorem px_to_nm_strict_mono_witness :
    ((0 : ℚ) ≠ 100 ∧ (500 : ℚ) ≠ 400 ∧ (0 : ℚ) < 1 ∧
      pxToNm (⟨0, 500, 100, 400⟩ : Calib) 0 = some 500 ∧
      pxToNm (⟨0, 500, 100, 400⟩ : Calib) 1 = some 501) ∧
    (500 : ℚ) < 501 := by
  have habs1 : |(0 : ℚ) - 100| = 100 := by
    rw [abs_sub_eval_of_le (by norm_num)]; norm_num
  have habs2 : |(500 : ℚ) - 400| = 100 := by
    rw [abs_sub_eval_of_ge (by norm_num)]; norm_num
  have h0 : pxToNm (⟨0, 500, 100, 400⟩ : Calib) 0 = some 500 := by
    simp only [pxToNm, pxToNmVal, pxRange, nmRange]
    norm_num [habs1, habs2]
  have h1 : pxToNm (⟨0, 500, 100, 400⟩ : Calib) 1 = some 501 := by
    simp only [pxToNm, pxToNmVal, pxRange, nmRange]
    norm_num [habs1, habs2]
  exact ⟨⟨by norm_num, by norm_num, by norm_num, h0, h1⟩,
    px_to_nm_strict_mono ⟨0, 500, 100, 400⟩ 0 1 500 501
      (by norm_num) (by norm_num) (by norm_num) h0 h1⟩

end PySpectroscope
